import Mathlib

/-!
Shallow embedding of the id3v2lib tag module (`src/src/modules/tag.c`) and of
the collaborators it uses (byte streams, the tag-header codec, the frame codec,
the frame list).  The collaborators' sources are not part of the repository
snapshot, so they are modelled from the specification; every such definition is
marked `Modelled from the spec:` in its doc comment.  Bytes are `Nat`s, C `int`
values that can go negative are `Int`s, and buffers are `List Nat`.
-/

namespace Id3v2

/-- Modelled from the spec: a bounded, cursor-addressed byte buffer.  `data` is
the backing buffer (allocated zero-filled), `cursor` the current position and
`size` the allocated capacity, as stored in the C struct's `size` field. -/
structure CharStream where
  data : List Nat
  cursor : Nat
  size : Nat
deriving Repr, DecidableEq

/-- Modelled from the spec: `new(capacity)` allocates a fixed-capacity
zero-filled buffer and a zero cursor. -/
def CharStream_new (n : Nat) : CharStream :=
  { data := List.replicate n 0, cursor := 0, size := n }

/-- Modelled from the spec: `write(bytes, n)` copies the bytes at the cursor
position and advances it.  The reference implementation does not bounds-check,
so a write past the capacity simply extends the logical byte sequence. -/
def CharStream_write (cs : CharStream) (bytes : List Nat) : CharStream :=
  { data := cs.data.take cs.cursor ++ bytes ++ cs.data.drop (cs.cursor + bytes.length),
    cursor := cs.cursor + bytes.length,
    size := cs.size }

/-- Modelled from the spec: `seek(offset, SEEK_SET)` repositions the cursor to
the absolute offset. -/
def CharStream_seek_set (cs : CharStream) (offset : Nat) : CharStream :=
  { cs with cursor := offset }

/-- View a raw byte region as a stream positioned at its start. -/
def CharStream_of_bytes (bytes : List Nat) : CharStream :=
  { data := bytes, cursor := 0, size := bytes.length }

/-- The bytes written into a stream so far (the prefix below the cursor). -/
def CharStream.written (cs : CharStream) : List Nat := cs.data.take cs.cursor

/-- Modelled from the spec: the sync-safe encoding of a 28-bit value, four
groups of 7 bits, most-significant first, each in the low 7 bits of a byte
(the combined effect of the reference's `syncint_encode` and `itob`). -/
def syncsafe_bytes (n : Nat) : List Nat :=
  [(n >>> 21) % 128, (n >>> 14) % 128, (n >>> 7) % 128, n % 128]

/-- Modelled from the spec: sync-safe decoding; each byte contributes its low
7 bits, most-significant byte first, the top bit ignored even if set. -/
def syncsafe_decode (bytes : List Nat) : Nat :=
  bytes.foldl (fun acc b => acc * 128 + b % 128) 0

/-- Modelled from the spec: plain big-endian 4-byte decoding, used for frame
sizes on the older major versions (the reference's `btoi`). -/
def bigendian_decode (bytes : List Nat) : Nat :=
  bytes.foldl (fun acc b => acc * 256 + b % 256) 0

/-- Modelled from the spec: `clamp_int(value, lo, hi)` from the utils module. -/
def clamp_int (value lo hi : Int) : Int :=
  if value < lo then lo else if value > hi then hi else value

/-- Length of the fixed tag header: 3-byte magic, 2 version bytes, 1 flags
byte, 4-byte sync-safe size. -/
def ID3v2_TAG_HEADER_LENGTH : Nat := 10

/-- Length of a frame header: 4-byte id, 4-byte size, 2-byte flags. -/
def ID3v2_FRAME_HEADER_LENGTH : Nat := 10

/-- Modelled from the spec: the fixed default padding budget (a compile-time
constant in the reference; the spec fixes no number, 2048 is used here). -/
def ID3v2_TAG_DEFAULT_PADDING_LENGTH : Int := 2048

/-- The parsed tag header.  `identifier` is the fixed 3-byte magic, stored as
three byte fields mirroring the C `char[3]`; `tag_size` is the decoded 28-bit
sync-safe size of the frame region (excluding the 10-byte header). -/
structure TagHeader where
  id0 : Nat
  id1 : Nat
  id2 : Nat
  major_version : Nat
  minor_version : Nat
  flags : Nat
  tag_size : Int
  extended_header_size : Nat
deriving Repr, DecidableEq

/-- Modelled from the spec: a fresh empty header carries the fixed magic
`I D 3` (bytes 73 68 51), zero flags and sizes; major version 3 is used for
newly created tags. -/
def TagHeader_new_empty : TagHeader :=
  { id0 := 73, id1 := 68, id2 := 51, major_version := 3, minor_version := 0,
    flags := 0, tag_size := 0, extended_header_size := 0 }

/-- Modelled from the spec: parse the fixed 10-byte tag header at the cursor.
Mismatched magic (or too few bytes) yields `none` — "no tag present".  If flag
bit 6 is set the extended header's declared length is read from the following
4 sync-safe bytes and recorded; reading advances the cursor past every byte
consumed. -/
def TagHeader_parse (cs : CharStream) : Option (TagHeader × CharStream) :=
  if cs.data.length < cs.cursor + ID3v2_TAG_HEADER_LENGTH then none
  else
    let b := fun i => cs.data.getD (cs.cursor + i) 0
    if b 0 = 73 ∧ b 1 = 68 ∧ b 2 = 51 then
      let flags := b 5
      let size := syncsafe_decode [b 6, b 7, b 8, b 9]
      if flags.testBit 6 then
        if cs.data.length < cs.cursor + ID3v2_TAG_HEADER_LENGTH + 4 then none
        else
          some ({ id0 := b 0, id1 := b 1, id2 := b 2,
                  major_version := b 3, minor_version := b 4, flags := flags,
                  tag_size := (size : Int),
                  extended_header_size := syncsafe_decode [b 10, b 11, b 12, b 13] },
                { cs with cursor := cs.cursor + ID3v2_TAG_HEADER_LENGTH + 4 })
      else
        some ({ id0 := b 0, id1 := b 1, id2 := b 2,
                major_version := b 3, minor_version := b 4, flags := flags,
                tag_size := (size : Int), extended_header_size := 0 },
              { cs with cursor := cs.cursor + ID3v2_TAG_HEADER_LENGTH })
    else none

/-- A 4-character frame id, mirroring the C `char[4]`. -/
structure FrameId where
  c0 : Nat
  c1 : Nat
  c2 : Nat
  c3 : Nat
deriving Repr, DecidableEq

def ID3v2_TITLE_FRAME_ID : FrameId := ⟨84, 73, 84, 50⟩
def ID3v2_ARTIST_FRAME_ID : FrameId := ⟨84, 80, 69, 49⟩
def ID3v2_ALBUM_FRAME_ID : FrameId := ⟨84, 65, 76, 66⟩
def ID3v2_COMMENT_FRAME_ID : FrameId := ⟨67, 79, 77, 77⟩
def ID3v2_ALBUM_COVER_FRAME_ID : FrameId := ⟨65, 80, 73, 67⟩

/-- Modelled from the spec: the four variant body kinds of a frame.  Strings
are kept as raw encoded bytes; text-codec internals are an external
collaborator. -/
inductive FrameBody where
  | text (encoding : Nat) (text : List Nat)
  | comment (encoding : Nat) (language : List Nat) (short_description : List Nat)
      (full_text : List Nat)
  | apic (encoding : Nat) (mime_type : List Nat) (picture_type : Nat)
      (description : List Nat) (picture_data : List Nat)
  | generic (raw : List Nat)
deriving Repr, DecidableEq

/-- Modelled from the spec: string terminator width, two null bytes for the
wide encoding (tag 1), one otherwise. -/
def encTermination (encoding : Nat) : List Nat :=
  if encoding = 1 then [0, 0] else [0]

/-- Modelled from the spec: serialize a frame body per its kind.  Inability to
encode a body (an unrecognised encoding tag handed to the external text codec)
is reported as `none` — the fatal condition of §4.3. -/
def Frame_body_encode : FrameBody → Option (List Nat)
  | .text enc t => if enc ≤ 1 then some (enc :: t) else none
  | .comment enc lang desc full =>
      if enc ≤ 1 then some (lang ++ [enc] ++ desc ++ encTermination enc ++ full) else none
  | .apic enc mime ptype desc dat =>
      if enc ≤ 1 then
        some ([enc] ++ mime ++ [0] ++ [ptype] ++ desc ++ encTermination enc ++ dat)
      else none
  | .generic raw => some raw

/-- Split a byte list at the first single null byte. -/
def splitAtTerm1 : List Nat → List Nat × List Nat
  | [] => ([], [])
  | 0 :: rest => ([], rest)
  | x :: rest =>
      let r := splitAtTerm1 rest
      (x :: r.1, r.2)

/-- Split a byte list at the first pair of consecutive null bytes. -/
def splitAtTerm2 : List Nat → List Nat × List Nat
  | [] => ([], [])
  | 0 :: 0 :: rest => ([], rest)
  | x :: rest =>
      let r := splitAtTerm2 rest
      (x :: r.1, r.2)

/-- Modelled from the spec: an encoding-delimited string is terminated by one
or two null bytes depending on the encoding width. -/
def splitAtTerm (encoding : Nat) (bytes : List Nat) : List Nat × List Nat :=
  if encoding = 1 then splitAtTerm2 bytes else splitAtTerm1 bytes

/-- Modelled from the spec: text-frame ids start with the letter `T`. -/
def is_text_id (id : FrameId) : Prop := id.c0 = 84

instance (fid : FrameId) : Decidable (is_text_id fid) := by
  unfold is_text_id; infer_instance

/-- Modelled from the spec: dispatch a frame body by id.  Comment frames hold
a 3-byte language code, an encoding tag and two encoding-delimited strings;
picture frames hold an encoding tag, a null-terminated single-byte MIME type,
a picture-type byte, a description and the raw picture payload; text frames an
encoding tag and the encoded string; anything else is kept verbatim.  A body
too short for its structured kind is kept verbatim as well. -/
def Frame_body_parse (id : FrameId) (bytes : List Nat) : FrameBody :=
  if id = ID3v2_COMMENT_FRAME_ID then
    match bytes with
    | l0 :: l1 :: l2 :: enc :: rest =>
        let p := splitAtTerm enc rest
        .comment enc [l0, l1, l2] p.1 p.2
    | _ => .generic bytes
  else if id = ID3v2_ALBUM_COVER_FRAME_ID then
    match bytes with
    | enc :: rest =>
        let m := splitAtTerm1 rest
        match m.2 with
        | ptype :: rest2 =>
            let d := splitAtTerm enc rest2
            .apic enc m.1 ptype d.1 d.2
        | [] => .generic bytes
    | [] => .generic bytes
  else if is_text_id id then
    match bytes with
    | enc :: rest => .text enc rest
    | [] => .generic bytes
  else .generic bytes

/-- A frame: header fields (id, 2 flag bytes, body size) plus the variant
body.  Per the spec's data-model invariant, `size` is the byte length of the
serialized body. -/
structure ID3v2_Frame where
  id : FrameId
  flags0 : Nat
  flags1 : Nat
  size : Nat
  body : FrameBody
deriving Repr, DecidableEq

/-- Modelled from the spec: frame ids are 4 ASCII characters (capital letters
and digits); anything else signals "no frame" to the parse loop. -/
def frame_id_valid (id : FrameId) : Prop :=
  ((65 ≤ id.c0 ∧ id.c0 ≤ 90) ∨ (48 ≤ id.c0 ∧ id.c0 ≤ 57)) ∧
  ((65 ≤ id.c1 ∧ id.c1 ≤ 90) ∨ (48 ≤ id.c1 ∧ id.c1 ≤ 57)) ∧
  ((65 ≤ id.c2 ∧ id.c2 ≤ 90) ∨ (48 ≤ id.c2 ∧ id.c2 ≤ 57)) ∧
  ((65 ≤ id.c3 ∧ id.c3 ≤ 90) ∨ (48 ≤ id.c3 ∧ id.c3 ≤ 57))

instance (fid : FrameId) : Decidable (frame_id_valid fid) := by
  unfold frame_id_valid; infer_instance

/-- Modelled from the spec: parse one frame at the cursor.  The 4-byte id,
4-byte size (sync-safe on major version 4, big-endian otherwise) and 2-byte
flags are read; an invalid id or a size inconsistent with the remaining
stream bytes fails the frame (`none`); otherwise exactly `size` body bytes
are read and dispatched by id. -/
def Frame_parse (major : Nat) (cs : CharStream) : Option (ID3v2_Frame × CharStream) :=
  if cs.cursor + ID3v2_FRAME_HEADER_LENGTH > cs.data.length then none
  else
    let b := fun i => cs.data.getD (cs.cursor + i) 0
    let id : FrameId := ⟨b 0, b 1, b 2, b 3⟩
    if frame_id_valid id then
      let fsize :=
        if major = 4 then syncsafe_decode [b 4, b 5, b 6, b 7]
        else bigendian_decode [b 4, b 5, b 6, b 7]
      if cs.cursor + ID3v2_FRAME_HEADER_LENGTH + fsize > cs.data.length then none
      else
        let bodyBytes := (cs.data.drop (cs.cursor + ID3v2_FRAME_HEADER_LENGTH)).take fsize
        some ({ id := id, flags0 := b 8, flags1 := b 9, size := fsize,
                body := Frame_body_parse id bodyBytes },
              { cs with cursor := cs.cursor + ID3v2_FRAME_HEADER_LENGTH + fsize })
    else none

/-- Modelled from the spec: the serialized frame header — id, sync-safe size,
flags. -/
def frame_header_bytes (f : ID3v2_Frame) : List Nat :=
  [f.id.c0, f.id.c1, f.id.c2, f.id.c3] ++ syncsafe_bytes f.size ++ [f.flags0, f.flags1]

/-- Modelled from the spec: serialize one frame into a stream of capacity
`header->size + ID3v2_FRAME_HEADER_LENGTH`, writing id, size, flags, body.
A body that fails to encode yields `none`. -/
def Frame_to_char_stream (f : ID3v2_Frame) : Option CharStream :=
  match Frame_body_encode f.body with
  | none => none
  | some body =>
      let cs := CharStream_new (f.size + ID3v2_FRAME_HEADER_LENGTH)
      some (CharStream_write (CharStream_write cs (frame_header_bytes f)) body)

/-- Modelled from the spec: build a text frame; the body is the encoding tag
followed by the encoded string (the wide encoding is used when the text bytes
start with a byte-order mark), and `size` is set to the body's serialized
length per the data-model invariant. -/
def TextFrame_new (id : FrameId) (fl0 fl1 : Nat) (text : List Nat) : ID3v2_Frame :=
  let encoding := if text.take 2 = [255, 254] then 1 else 0
  { id := id, flags0 := fl0, flags1 := fl1,
    size := 1 + text.length, body := .text encoding text }

/-- Modelled from the spec: build a comment frame (language code, encoding
tag, encoding-delimited short description, full text); `size` equals the
serialized body length. -/
def CommentFrame_new (fl0 fl1 : Nat) (language short_description full_text : List Nat) :
    ID3v2_Frame :=
  let encoding := if full_text.take 2 = [255, 254] then 1 else 0
  { id := ID3v2_COMMENT_FRAME_ID, flags0 := fl0, flags1 := fl1,
    size := language.length + 1 + short_description.length +
      (encTermination encoding).length + full_text.length,
    body := .comment encoding language short_description full_text }

/-- Modelled from the spec: build an attached-picture frame; the payload is
`picture_size` bytes of `data` and `size` equals the serialized body length. -/
def ApicFrame_new (fl0 fl1 : Nat) (description : List Nat) (picture_type : Nat)
    (mime_type : List Nat) (picture_size : Nat) (data : List Nat) : ID3v2_Frame :=
  let encoding := if description.take 2 = [255, 254] then 1 else 0
  let payload := data.take picture_size
  { id := ID3v2_ALBUM_COVER_FRAME_ID, flags0 := fl0, flags1 := fl1,
    size := 1 + mime_type.length + 1 + 1 + description.length +
      (encTermination encoding).length + payload.length,
    body := .apic encoding mime_type picture_type description payload }

/-- Modelled from the spec: an empty frame list. -/
def FrameList_new : List ID3v2_Frame := []

/-- Modelled from the spec: append a frame at the tail, never reordering. -/
def FrameList_add_frame (l : List ID3v2_Frame) (f : ID3v2_Frame) : List ID3v2_Frame :=
  l ++ [f]

/-- Modelled from the spec: the first frame whose id exactly matches (linear
scan in list order). -/
def FrameList_get_frame_by_id (l : List ID3v2_Frame) (id : FrameId) : Option ID3v2_Frame :=
  l.find? (fun f => f.id == id)

/-- Modelled from the spec: splice the new frame into the exact position held
by the old one, preserving the relative order of all other entries. -/
def FrameList_replace_frame : List ID3v2_Frame → ID3v2_Frame → ID3v2_Frame →
    List ID3v2_Frame
  | [], _, _ => []
  | f :: rest, oldf, newf =>
      if f = oldf then newf :: rest
      else f :: FrameList_replace_frame rest oldf newf

/-- The tag aggregate: header, ordered frame list, trailing padding length. -/
structure ID3v2_Tag where
  header : TagHeader
  frames : List ID3v2_Frame
  padding_size : Int
deriving Repr, DecidableEq

/-- Embedding of `ID3v2_Tag_new` (tag.c lines 29-37): the `padding_size`
argument is not used — the field is initialised to 0 — and a null header is
replaced by a fresh empty one. -/
def ID3v2_Tag_new (header : Option TagHeader) (padding_size : Int) : ID3v2_Tag :=
  { header :=
      match header with
      | none => TagHeader_new_empty
      | some h => h,
    frames := FrameList_new,
    padding_size := 0 }

/-- Embedding of `ID3v2_Tag_new_empty` (tag.c lines 39-42). -/
def ID3v2_Tag_new_empty : ID3v2_Tag := ID3v2_Tag_new none 0

/-- Embedding of `Tag_parse` lines 46-55: parse the tag header from the byte
region and, when `extended_header_size > 0`, perform
`CharStream_seek(tag_cs, header->extended_header_size, SEEK_SET)` — an
absolute seek to that offset. -/
def Tag_parse_setup (cs : CharStream) : Option (TagHeader × CharStream) :=
  match TagHeader_parse cs with
  | none => none
  | some (header, cs1) =>
      if header.extended_header_size > 0 then
        some (header, CharStream_seek_set cs1 header.extended_header_size)
      else some (header, cs1)

/-- Embedding of the frame-parsing loop of `Tag_parse` (lines 57-63): while
the cursor is below `tag_size`, parse a frame; a failed frame breaks the
loop, a parsed frame is appended.  The fuel argument only bounds the
recursion; `Tag_parse` supplies enough for the loop to run to its C exit
condition. -/
def Tag_parse_frames (major : Nat) (bound : Int) :
    Nat → CharStream → List ID3v2_Frame × CharStream
  | 0, cs => ([], cs)
  | fuel + 1, cs =>
      if (cs.cursor : Int) < bound then
        match Frame_parse major cs with
        | none => ([], cs)
        | some (f, cs') =>
            let r := Tag_parse_frames major bound fuel cs'
            (f :: r.1, r.2)
      else ([], cs)

/-- Iterating `Frame_parse` at most `k` times, collecting the successively
parsed frames in order and stopping early at the first failure.  Used to
state what the parse loop keeps. -/
def Frame_parse_iter (major : Nat) : Nat → CharStream → List ID3v2_Frame × CharStream
  | 0, cs => ([], cs)
  | k + 1, cs =>
      match Frame_parse major cs with
      | none => ([], cs)
      | some (f, cs') =>
          let r := Frame_parse_iter major k cs'
          (f :: r.1, r.2)

/-- Embedding of `Tag_parse` (tag.c lines 44-68): header, extended-header
skip, frame loop, and `padding_size = tag_cs->size - tag_cs->cursor`. -/
def Tag_parse (bytes : List Nat) : Option ID3v2_Tag :=
  match Tag_parse_setup (CharStream_of_bytes bytes) with
  | none => none
  | some (header, cs2) =>
      let r := Tag_parse_frames header.major_version header.tag_size
        (header.tag_size.toNat + 1) cs2
      some { header := header, frames := r.1,
             padding_size := (r.2.size : Int) - (r.2.cursor : Int) }

/-- Outcome of tag serialization: a finished stream, or termination of the
whole process (the C `exit(1)` on line 91 of tag.c). -/
inductive TagStreamResult where
  | ok (cs : CharStream)
  | processExit (code : Nat)
deriving Repr, DecidableEq

/-- Embedding of the frame loop of `Tag_to_char_stream` (lines 86-97):
serialize each frame in list order, appending `frame_cs->size` bytes of its
buffer; a frame whose stream is null makes the process exit with code 1. -/
def Tag_write_frames : List ID3v2_Frame → CharStream → TagStreamResult
  | [], cs => .ok cs
  | f :: rest, cs =>
      match Frame_to_char_stream f with
      | none => .processExit 1
      | some frame_cs =>
          Tag_write_frames rest (CharStream_write cs (frame_cs.data.take frame_cs.size))

/-- Embedding of `Tag_to_char_stream` (tag.c lines 70-100): allocate a stream
of `tag_size + ID3v2_TAG_HEADER_LENGTH` bytes, write identifier, versions,
flags and the sync-safe size, then the frames in list order. -/
def Tag_to_char_stream (tag : ID3v2_Tag) : TagStreamResult :=
  let cs0 := CharStream_new (tag.header.tag_size + (ID3v2_TAG_HEADER_LENGTH : Int)).toNat
  let cs1 := CharStream_write cs0 [tag.header.id0, tag.header.id1, tag.header.id2]
  let cs2 := CharStream_write cs1 [tag.header.major_version]
  let cs3 := CharStream_write cs2 [tag.header.minor_version]
  let cs4 := CharStream_write cs3 [tag.header.flags]
  let cs5 := CharStream_write cs4 (syncsafe_bytes tag.header.tag_size.toNat)
  Tag_write_frames tag.frames cs5

/-- Modelled from the spec: `ID3v2_TagHeader_read(dest)` probes the
destination file for an existing tag by reading only its header. -/
def ID3v2_TagHeader_read (dest : List Nat) : Option TagHeader :=
  (TagHeader_parse (CharStream_of_bytes dest)).map Prod.fst

/-- Embedding of tag.c lines 106-108: the on-disk extent of any existing tag,
`tag_size + ID3v2_TAG_HEADER_LENGTH` when a header is present, 0 otherwise. -/
def Tag_write_original_size (dest : List Nat) : Int :=
  match ID3v2_TagHeader_read dest with
  | some h => h.tag_size + (ID3v2_TAG_HEADER_LENGTH : Int)
  | none => 0

/-- Embedding of tag.c lines 111-115: the extra trailing padding amount the
write computes, `clamp(default - padding_size, 0, default)`.  The computed
local is never used afterwards in the C code. -/
def ID3v2_Tag_write_extra_padding (tag : ID3v2_Tag) : Int :=
  clamp_int (ID3v2_TAG_DEFAULT_PADDING_LENGTH - tag.padding_size) 0
    ID3v2_TAG_DEFAULT_PADDING_LENGTH

/-- Outcome of `ID3v2_Tag_write`: the destination file's new contents, or
termination of the process during serialization. -/
inductive WriteResult where
  | ok (dest : List Nat)
  | processExit (code : Nat)
deriving Repr, DecidableEq

/-- Embedding of `ID3v2_Tag_write` (tag.c lines 102-150): a null tag returns
immediately; otherwise the temp file receives `tag_cs->size` bytes of the
serialized stream followed by every destination byte from the original tag
extent onwards, and the destination is overwritten with the temp file's
contents.  The computed extra padding is bound but, as in the C code, never
written. -/
def ID3v2_Tag_write (tag : Option ID3v2_Tag) (dest : List Nat) : WriteResult :=
  match tag with
  | none => .ok dest
  | some t =>
      let original_size := Tag_write_original_size dest
      let _extra_padding_length := ID3v2_Tag_write_extra_padding t
      match Tag_to_char_stream t with
      | .processExit c => .processExit c
      | .ok tag_cs =>
          .ok (tag_cs.data.take tag_cs.size ++ dest.drop original_size.toNat)

/-- Input record for `ID3v2_Tag_set_text_frame`. -/
structure ID3v2_TextFrameInput where
  id : FrameId
  flags0 : Nat
  flags1 : Nat
  text : List Nat

/-- Embedding of `ID3v2_Tag_set_text_frame` (tag.c lines 245-266): build the
new frame; if no frame with the id exists, append it and add
`new_frame->header->size` to `tag_size`; otherwise replace it in place and
adjust `tag_size` by the difference of the two `header->size` fields. -/
def ID3v2_Tag_set_text_frame (tag : ID3v2_Tag) (input : ID3v2_TextFrameInput) : ID3v2_Tag :=
  let new_frame := TextFrame_new input.id input.flags0 input.flags1 input.text
  match FrameList_get_frame_by_id tag.frames input.id with
  | none =>
      { tag with
        frames := FrameList_add_frame tag.frames new_frame,
        header := { tag.header with
          tag_size := tag.header.tag_size + (new_frame.size : Int) } }
  | some existing_frame =>
      { tag with
        frames := FrameList_replace_frame tag.frames existing_frame new_frame,
        header := { tag.header with
          tag_size := tag.header.tag_size +
            ((new_frame.size : Int) - (existing_frame.size : Int)) } }

/-- Embedding of `ID3v2_Tag_set_artist` (tag.c lines 268-278). -/
def ID3v2_Tag_set_artist (tag : ID3v2_Tag) (artist : List Nat) : ID3v2_Tag :=
  ID3v2_Tag_set_text_frame tag
    { id := ID3v2_ARTIST_FRAME_ID, flags0 := 0, flags1 := 0, text := artist }

/-- Embedding of `ID3v2_Tag_set_title` (tag.c lines 292-302). -/
def ID3v2_Tag_set_title (tag : ID3v2_Tag) (title : List Nat) : ID3v2_Tag :=
  ID3v2_Tag_set_text_frame tag
    { id := ID3v2_TITLE_FRAME_ID, flags0 := 0, flags1 := 0, text := title }

/-- Input record for the comment-frame setters. -/
structure ID3v2_CommentFrameInput where
  flags0 : Nat
  flags1 : Nat
  language : List Nat
  short_description : List Nat
  comment : List Nat

/-- Embedding of `ID3v2_Tag_set_comment_frame` (tag.c lines 379-400). -/
def ID3v2_Tag_set_comment_frame (tag : ID3v2_Tag) (input : ID3v2_CommentFrameInput) :
    ID3v2_Tag :=
  let new_frame := CommentFrame_new input.flags0 input.flags1 input.language
    input.short_description input.comment
  match FrameList_get_frame_by_id tag.frames ID3v2_COMMENT_FRAME_ID with
  | none =>
      { tag with
        frames := FrameList_add_frame tag.frames new_frame,
        header := { tag.header with
          tag_size := tag.header.tag_size + (new_frame.size : Int) } }
  | some existing_frame =>
      { tag with
        frames := FrameList_replace_frame tag.frames existing_frame new_frame,
        header := { tag.header with
          tag_size := tag.header.tag_size +
            ((new_frame.size : Int) - (existing_frame.size : Int)) } }

/-- Embedding of `ID3v2_Tag_add_comment_frame` (tag.c lines 402-408): build
the frame, append unconditionally, add `new_frame->header->size`. -/
def ID3v2_Tag_add_comment_frame (tag : ID3v2_Tag) (input : ID3v2_CommentFrameInput) :
    ID3v2_Tag :=
  let new_frame := CommentFrame_new input.flags0 input.flags1 input.language
    input.short_description input.comment
  { tag with
    frames := FrameList_add_frame tag.frames new_frame,
    header := { tag.header with
      tag_size := tag.header.tag_size + (new_frame.size : Int) } }

/-- Input record for the picture-frame setters. -/
structure ID3v2_ApicFrameInput where
  flags0 : Nat
  flags1 : Nat
  mime_type : List Nat
  description : List Nat
  picture_type : Nat
  picture_size : Nat
  data : List Nat

/-- Embedding of `ID3v2_Tag_set_apic_frame` (tag.c lines 426-453). -/
def ID3v2_Tag_set_apic_frame (tag : ID3v2_Tag) (input : ID3v2_ApicFrameInput) : ID3v2_Tag :=
  let new_frame := ApicFrame_new input.flags0 input.flags1 input.description
    input.picture_type input.mime_type input.picture_size input.data
  match FrameList_get_frame_by_id tag.frames ID3v2_ALBUM_COVER_FRAME_ID with
  | none =>
      { tag with
        frames := FrameList_add_frame tag.frames new_frame,
        header := { tag.header with
          tag_size := tag.header.tag_size + (new_frame.size : Int) } }
  | some existing_frame =>
      { tag with
        frames := FrameList_replace_frame tag.frames existing_frame new_frame,
        header := { tag.header with
          tag_size := tag.header.tag_size +
            ((new_frame.size : Int) - (existing_frame.size : Int)) } }

/-- Embedding of `ID3v2_Tag_add_apic_frame` (tag.c lines 455-467). -/
def ID3v2_Tag_add_apic_frame (tag : ID3v2_Tag) (input : ID3v2_ApicFrameInput) : ID3v2_Tag :=
  let new_frame := ApicFrame_new input.flags0 input.flags1 input.description
    input.picture_type input.mime_type input.picture_size input.data
  { tag with
    frames := FrameList_add_frame tag.frames new_frame,
    header := { tag.header with
      tag_size := tag.header.tag_size + (new_frame.size : Int) } }

/-- The full serialized size of a frame: its 10-byte header plus its body
(`header->size`) — the quantity the spec says every append must add to
`tag_size`. -/
def frame_full_serialized_size (f : ID3v2_Frame) : Int :=
  (ID3v2_FRAME_HEADER_LENGTH : Int) + (f.size : Int)

/-- Sum of the full serialized sizes of a frame list. -/
def frames_full_serialized_size (l : List ID3v2_Frame) : Int :=
  l.foldr (fun f acc => frame_full_serialized_size f + acc) 0

/-- The complete byte image of one serialized frame: header bytes followed by
the encoded body (empty when the body cannot be encoded). -/
def frame_full_stream_bytes (f : ID3v2_Frame) : List Nat :=
  frame_header_bytes f ++ (Frame_body_encode f.body).getD []

/-- Specification-side layout of the serialized frame region (§4.6): the
frames' byte images concatenated in list order. -/
def frames_layout_spec (l : List ID3v2_Frame) : List Nat :=
  l.foldr (fun f acc => frame_full_stream_bytes f ++ acc) []

/-- Specification-side layout of the serialized 10-byte tag header (§4.2):
magic, major version, minor version, flags, sync-safe size. -/
def tag_header_layout_spec (h : TagHeader) : List Nat :=
  [h.id0, h.id1, h.id2, h.major_version, h.minor_version, h.flags] ++
    syncsafe_bytes h.tag_size.toNat

/-- The frame's `size` field agrees with the serialized length of its body —
the data-model invariant of §3, stated decidably. -/
def Frame_size_consistent (f : ID3v2_Frame) : Prop :=
  (Frame_body_encode f.body).map List.length = some f.size

instance (f : ID3v2_Frame) : Decidable (Frame_size_consistent f) := by
  unfold Frame_size_consistent; infer_instance

/-- Text held by a text frame, when the frame is one. -/
def frame_text (f : ID3v2_Frame) : Option (List Nat) :=
  match f.body with
  | .text _ t => some t
  | _ => none

/-- Extended-header size recorded by `Tag_parse_setup`, for stating where the
frame loop starts. -/
def setup_ext_size (r : Option (TagHeader × CharStream)) : Option Nat :=
  r.map (fun p => p.1.extended_header_size)

/-- Cursor position at which the frame-parsing loop begins, as produced by
`Tag_parse_setup`. -/
def setup_cursor (r : Option (TagHeader × CharStream)) : Option Nat :=
  r.map (fun p => p.2.cursor)

/-- Capacity of a successfully serialized tag stream. -/
def tag_stream_capacity (r : TagStreamResult) : Option Nat :=
  match r with
  | .ok cs => some cs.size
  | .processExit _ => none

/-- Cursor (total bytes written) of a successfully serialized tag stream. -/
def tag_stream_cursor (r : TagStreamResult) : Option Nat :=
  match r with
  | .ok cs => some cs.cursor
  | .processExit _ => none

/-- Length of the destination file produced by a completed write. -/
def write_result_length (r : WriteResult) : Option Nat :=
  match r with
  | .ok dest => some dest.length
  | .processExit _ => none

/-- A frame whose body cannot be encoded: encoding tag 9 is not a recognised
text encoding, so the external codec fails on it. -/
def unencodable_frame : ID3v2_Frame :=
  { id := ID3v2_TITLE_FRAME_ID, flags0 := 0, flags1 := 0, size := 3,
    body := .text 9 [65, 66] }

/-- A tag holding a frame whose body fails to encode. -/
def unencodable_tag : ID3v2_Tag :=
  { header := TagHeader_new_empty, frames := [unencodable_frame], padding_size := 0 }

/-- A tag holding an encodable frame followed by one whose body fails to
encode. -/
def half_encodable_tag : ID3v2_Tag :=
  { header := TagHeader_new_empty,
    frames := [TextFrame_new ID3v2_ARTIST_FRAME_ID 0 0 [70], unencodable_frame],
    padding_size := 0 }

/-- A tag whose frame list already holds two distinct frames with the title
id, as the data model permits (duplicate ids arise from parsed input). -/
def duplicate_title_tag : ID3v2_Tag :=
  { header := TagHeader_new_empty,
    frames := [TextFrame_new ID3v2_TITLE_FRAME_ID 0 0 [65],
               TextFrame_new ID3v2_TITLE_FRAME_ID 0 0 [66]],
    padding_size := 0 }

/-- A byte region whose tag header has the extended-header flag (bit 6) set
and declares an extended-header length of 12. -/
def ext_header_region : List Nat :=
  [73, 68, 51, 3, 0, 64] ++ [0, 0, 0, 40] ++ [0, 0, 0, 12] ++ List.replicate 26 0

/-!
Claim theorems.
-/

/-- C1: the claim says every append adds the frame's full serialized size
(frame header plus body) to `tag_size`.  The code of
`ID3v2_Tag_set_text_frame` adds only `new_frame->header->size`, the body
length: after one append to an empty tag, `tag_size` is 2 while the sum of
full serialized sizes over the frame list is 12.  The serializer's own
allocation (`tag_size + ID3v2_TAG_HEADER_LENGTH` = 12 bytes) is then smaller
than the 22 bytes it writes, confirming that the claimed invariant is the
intended one and the bookkeeping is the slip. -/
theorem set_text_frame_tag_size_omits_frame_header :
    (ID3v2_Tag_set_text_frame ID3v2_Tag_new_empty
        ⟨ID3v2_TITLE_FRAME_ID, 0, 0, [81]⟩).header.tag_size = 2 ∧
    frames_full_serialized_size (ID3v2_Tag_set_text_frame ID3v2_Tag_new_empty
        ⟨ID3v2_TITLE_FRAME_ID, 0, 0, [81]⟩).frames = 12 ∧
    (ID3v2_Tag_set_text_frame ID3v2_Tag_new_empty
        ⟨ID3v2_TITLE_FRAME_ID, 0, 0, [81]⟩).header.tag_size ≠
      frames_full_serialized_size (ID3v2_Tag_set_text_frame ID3v2_Tag_new_empty
        ⟨ID3v2_TITLE_FRAME_ID, 0, 0, [81]⟩).frames ∧
    tag_stream_capacity (Tag_to_char_stream (ID3v2_Tag_set_text_frame ID3v2_Tag_new_empty
        ⟨ID3v2_TITLE_FRAME_ID, 0, 0, [81]⟩)) = some 12 ∧
    tag_stream_cursor (Tag_to_char_stream (ID3v2_Tag_set_text_frame ID3v2_Tag_new_empty
        ⟨ID3v2_TITLE_FRAME_ID, 0, 0, [81]⟩)) = some 22 := by
  decide

/-- C3 counterexample: on a tag containing a frame whose body fails to
encode, `Tag_to_char_stream` terminates the process with `exit(1)` — it does
not return a structured error to the caller, refuting the claim on this
code. -/
theorem tag_serialization_aborts_on_unencodable_body :
    Frame_to_char_stream unencodable_frame = none ∧
    Tag_to_char_stream unencodable_tag = .processExit 1 := by
  decide

/-- C4: the write computes the extra-padding amount — here
`clamp(2048 - 0, 0, 2048) = 2048` — but the rewritten file is exactly the
serialized tag bytes followed by the payload byte `9`, with zero filler bytes
appended, refuting the claim that `clamp(...)` filler bytes are written. -/
theorem tag_write_computes_but_never_appends_padding :
    ID3v2_Tag_write_extra_padding ⟨TagHeader_new_empty, [], 0⟩ = 2048 ∧
    ID3v2_Tag_write (some ⟨TagHeader_new_empty, [], 0⟩) [9] =
      .ok [73, 68, 51, 3, 0, 0, 0, 0, 0, 0, 9] ∧
    write_result_length (ID3v2_Tag_write (some ⟨TagHeader_new_empty, [], 0⟩) [9]) =
      some 11 := by
  decide

/-- C5: on a region whose header declares an extended header of length 12,
`Tag_parse` records 12 and then seeks to absolute offset 12 — inside the
extended-header region and not at offset `ID3v2_TAG_HEADER_LENGTH + 12 = 22`,
the first byte after the extended header, where the claim says frame parsing
must begin. -/
theorem tag_parse_ext_header_seek_mispositions :
    setup_ext_size (Tag_parse_setup (CharStream_of_bytes ext_header_region)) = some 12 ∧
    setup_cursor (Tag_parse_setup (CharStream_of_bytes ext_header_region)) = some 12 ∧
    (12 : Nat) ≠ ID3v2_TAG_HEADER_LENGTH + 12 := by
  decide

/-- C6 counterexample: on a tag that already holds two frames with the title
id, setting that id twice replaces only the first match, so the resulting tag
still holds two frames with the id — not exactly one as the claim states for
every tag. -/
theorem set_text_frame_twice_keeps_duplicate :
    ((ID3v2_Tag_set_text_frame (ID3v2_Tag_set_text_frame duplicate_title_tag
        ⟨ID3v2_TITLE_FRAME_ID, 0, 0, [67]⟩)
        ⟨ID3v2_TITLE_FRAME_ID, 0, 0, [68]⟩).frames.countP
      (fun f => f.id == ID3v2_TITLE_FRAME_ID)) = 2 := by
  decide

/-- C9: invoking the write with a null tag is a no-op — it completes without
error and returns the destination contents unchanged. -/
theorem tag_write_null_tag_noop :
    ∀ dest : List Nat, ID3v2_Tag_write none dest = .ok dest :=
  fun _ => rfl

/-- C10: `ID3v2_Tag_new` ignores its `padding_size` argument (the field is
always 0), starts with an empty frame list, substitutes a fresh empty header
for a null one and keeps a supplied one, and `ID3v2_Tag_new_empty` is exactly
`ID3v2_Tag_new` at null header and 0 padding. -/
theorem tag_new_ignores_padding_and_starts_empty :
    ∀ (h : Option TagHeader) (p : Int),
      (ID3v2_Tag_new h p).padding_size = 0 ∧
      (ID3v2_Tag_new h p).frames = [] ∧
      (ID3v2_Tag_new none p).header = TagHeader_new_empty ∧
      (∀ hdr : TagHeader, (ID3v2_Tag_new (some hdr) p).header = hdr) ∧
      ID3v2_Tag_new_empty = ID3v2_Tag_new none 0 :=
  fun _ _ => ⟨rfl, rfl, rfl, fun _ => rfl, rfl⟩

/-- Helper for the serialization loop: a frame list containing a frame whose
stream is null drives `Tag_write_frames` into the process-exit branch. -/
theorem Tag_write_frames_fails (l : List ID3v2_Frame) :
    ∀ cs : CharStream, (∃ f ∈ l, Frame_to_char_stream f = none) →
      Tag_write_frames l cs = .processExit 1 := by
  induction l with
  | nil => intro cs h; simp at h
  | cons f rest ih =>
      intro cs h
      obtain ⟨g, hg, hfail⟩ := h
      cases hfc : Frame_to_char_stream f with
      | none => simp [Tag_write_frames, hfc]
      | some fcs =>
          have hgr : g ∈ rest := by
            rcases List.mem_cons.mp hg with hgf | hgr
            · exact absurd hfail (by rw [hgf, hfc]; simp)
            · exact hgr
          simp only [Tag_write_frames, hfc]
          exact ih _ ⟨g, hgr, hfail⟩

/-- C3 amended: serializing a tag that contains any frame whose body fails to
encode terminates the whole process with exit code 1 (the `exit(1)` of
tag.c line 91), rather than returning a structured error to the caller. -/
theorem tag_serialization_exits_process_on_bad_body :
    ∀ tag : ID3v2_Tag, (∃ f ∈ tag.frames, Frame_to_char_stream f = none) →
      Tag_to_char_stream tag = .processExit 1 := by
  intro tag h
  unfold Tag_to_char_stream
  exact Tag_write_frames_fails _ _ h

/-- C3 witness: the amended theorem applied to a concrete tag holding one
encodable frame followed by an unencodable one. -/
theorem tag_serialization_exits_process_on_bad_body_witness :
    Tag_to_char_stream half_encodable_tag = .processExit 1 :=
  tag_serialization_exits_process_on_bad_body half_encodable_tag
    ⟨unencodable_frame, by decide, by decide⟩

/-- C2: writing a non-null tag whose serialization completes rewrites the
destination as exactly the serialized tag bytes followed, immediately and in
order, by every destination byte from the original tag extent onwards — the
payload is preserved unchanged at the end of the file whatever the relative
tag sizes.  The extent is `old tag_size + header length` when a tag header is
present and 0 when absent. -/
theorem tag_write_preserves_payload :
    ∀ (t : ID3v2_Tag) (dest : List Nat) (cs : CharStream),
      Tag_to_char_stream t = .ok cs →
      ID3v2_Tag_write (some t) dest =
        .ok (cs.data.take cs.size ++ dest.drop (Tag_write_original_size dest).toNat) ∧
      (ID3v2_TagHeader_read dest = none → Tag_write_original_size dest = 0) ∧
      (∀ h : TagHeader, ID3v2_TagHeader_read dest = some h →
        Tag_write_original_size dest = h.tag_size + (ID3v2_TAG_HEADER_LENGTH : Int)) := by
  intro t dest cs hser
  refine ⟨?_, ?_, ?_⟩
  · simp [ID3v2_Tag_write, hser]
  · intro hn; simp [Tag_write_original_size, hn]
  · intro h hh; simp [Tag_write_original_size, hh]

/-- C2 witness: the theorem applied to the empty tag and a destination file
of three payload bytes holding no prior tag, giving the serialized header
followed by the untouched payload. -/
theorem tag_write_preserves_payload_witness :
    ID3v2_Tag_write (some ⟨TagHeader_new_empty, [], 0⟩) [1, 2, 3] =
      .ok ([73, 68, 51, 3, 0, 0, 0, 0, 0, 0] ++ [1, 2, 3]) :=
  (tag_write_preserves_payload ⟨TagHeader_new_empty, [], 0⟩ [1, 2, 3]
    ⟨[73, 68, 51, 3, 0, 0, 0, 0, 0, 0], 10, 10⟩ (by decide)).1

/-- Replacing a frame at the head of the list when it is the one sought. -/
theorem FrameList_replace_frame_cons_self (a newf : ID3v2_Frame) (l : List ID3v2_Frame) :
    FrameList_replace_frame (a :: l) a newf = newf :: l := by
  simp [FrameList_replace_frame]

/-- Replacing skips a head frame different from the one sought. -/
theorem FrameList_replace_frame_cons_ne (a oldf newf : ID3v2_Frame)
    (l : List ID3v2_Frame) (h : a ≠ oldf) :
    FrameList_replace_frame (a :: l) oldf newf =
      a :: FrameList_replace_frame l oldf newf := by
  simp only [FrameList_replace_frame]
  rw [if_neg h]

/-- Reduction of `ID3v2_Tag_set_text_frame` when no frame with the id
exists: the new frame is appended and its `size` added to `tag_size`. -/
theorem ID3v2_Tag_set_text_frame_of_none (tag : ID3v2_Tag)
    (input : ID3v2_TextFrameInput)
    (h : FrameList_get_frame_by_id tag.frames input.id = none) :
    ID3v2_Tag_set_text_frame tag input =
      { tag with
        frames := FrameList_add_frame tag.frames
          (TextFrame_new input.id input.flags0 input.flags1 input.text),
        header := { tag.header with
          tag_size := tag.header.tag_size +
            ((TextFrame_new input.id input.flags0 input.flags1 input.text).size : Int) } } := by
  unfold ID3v2_Tag_set_text_frame
  rw [h]

/-- Reduction of `ID3v2_Tag_set_text_frame` when the lookup finds an
existing frame: it is replaced in place and `tag_size` adjusted by the size
difference. -/
theorem ID3v2_Tag_set_text_frame_of_some (tag : ID3v2_Tag)
    (input : ID3v2_TextFrameInput) (existing : ID3v2_Frame)
    (h : FrameList_get_frame_by_id tag.frames input.id = some existing) :
    ID3v2_Tag_set_text_frame tag input =
      { tag with
        frames := FrameList_replace_frame tag.frames existing
          (TextFrame_new input.id input.flags0 input.flags1 input.text),
        header := { tag.header with
          tag_size := tag.header.tag_size +
            (((TextFrame_new input.id input.flags0 input.flags1 input.text).size : Int) -
              (existing.size : Int)) } } := by
  unfold ID3v2_Tag_set_text_frame
  rw [h]

/-- Replacing the first frame carrying an id (as found by the lookup) with a
new frame of the same id keeps the first-match lookup pointing at the new
frame, keeps the number of id-matching frames unchanged, and keeps the match
at the same list position. -/
theorem FrameList_replace_found (fid : FrameId) (oldf newf : ID3v2_Frame)
    (hnew : newf.id = fid) :
    ∀ l : List ID3v2_Frame, l.find? (fun f => f.id == fid) = some oldf →
      (FrameList_replace_frame l oldf newf).find? (fun f => f.id == fid) = some newf ∧
      (FrameList_replace_frame l oldf newf).countP (fun f => f.id == fid) =
        l.countP (fun f => f.id == fid) ∧
      (FrameList_replace_frame l oldf newf).findIdx (fun f => f.id == fid) =
        l.findIdx (fun f => f.id == fid) := by
  intro l
  induction l with
  | nil => intro hfind; simp at hfind
  | cons a l ih =>
      intro hfind
      have hold : oldf.id = fid := by simpa using List.find?_some hfind
      by_cases ha : a.id = fid
      · have haold : a = oldf := by
          rw [List.find?_cons_of_pos _ (by simp [ha])] at hfind
          exact Option.some.inj hfind
        subst haold
        rw [FrameList_replace_frame_cons_self]
        refine ⟨?_, ?_, ?_⟩
        · exact List.find?_cons_of_pos _ (by simp [hnew])
        · simp [List.countP_cons, hnew, ha]
        · simp [List.findIdx_cons, hnew, ha]
      · have hne : a ≠ oldf := fun he => ha (he ▸ hold)
        have hfind' : l.find? (fun f => f.id == fid) = some oldf := by
          rw [List.find?_cons_of_neg _ (by simp [ha])] at hfind
          exact hfind
        obtain ⟨h1, h2, h3⟩ := ih hfind'
        rw [FrameList_replace_frame_cons_ne _ _ _ _ hne]
        refine ⟨?_, ?_, ?_⟩
        · rw [List.find?_cons_of_neg _ (by simp [ha])]
          exact h1
        · simp [List.countP_cons, ha, h2]
        · simp [List.findIdx_cons, ha, h3]

/-- Appending a frame to a list holding no frame with its id makes it the
first (and only additional) match of the lookup. -/
theorem FrameList_append_found (fid : FrameId) (newf : ID3v2_Frame)
    (hnew : newf.id = fid) :
    ∀ l : List ID3v2_Frame, l.find? (fun f => f.id == fid) = none →
      (l ++ [newf]).find? (fun f => f.id == fid) = some newf ∧
      (l ++ [newf]).countP (fun f => f.id == fid) =
        l.countP (fun f => f.id == fid) + 1 := by
  intro l
  induction l with
  | nil => intro _; simp [hnew]
  | cons a l ih =>
      intro hfind
      have ha : ¬ a.id = fid := by
        intro h
        rw [List.find?_cons_of_pos _ (by simp [h])] at hfind
        exact Option.noConfusion hfind
      have hfind' : l.find? (fun f => f.id == fid) = none := by
        rw [List.find?_cons_of_neg _ (by simp [ha])] at hfind
        exact hfind
      obtain ⟨h1, h2⟩ := ih hfind'
      constructor
      · rw [List.cons_append, List.find?_cons_of_neg _ (by simp [ha])]
        exact h1
      · rw [List.cons_append]
        simp [List.countP_cons, ha, h2]

/-- One application of `ID3v2_Tag_set_text_frame` to a tag holding at most
one frame with the target id leaves exactly one frame with that id, and the
first-match lookup returns the newly built frame. -/
theorem set_text_frame_step (tag : ID3v2_Tag) (fid : FrameId) (fl0 fl1 : Nat)
    (t : List Nat)
    (hcount : tag.frames.countP (fun f => f.id == fid) ≤ 1) :
    (ID3v2_Tag_set_text_frame tag ⟨fid, fl0, fl1, t⟩).frames.countP
        (fun f => f.id == fid) = 1 ∧
    FrameList_get_frame_by_id (ID3v2_Tag_set_text_frame tag ⟨fid, fl0, fl1, t⟩).frames
        fid = some (TextFrame_new fid fl0 fl1 t) := by
  cases hfind : FrameList_get_frame_by_id tag.frames fid with
  | none =>
      have hzero : tag.frames.countP (fun f => f.id == fid) = 0 := by
        rw [List.countP_eq_zero]
        intro a ha
        have := List.find?_eq_none.mp hfind a ha
        simpa using this
      obtain ⟨h1, h2⟩ := FrameList_append_found fid (TextFrame_new fid fl0 fl1 t) rfl
        tag.frames hfind
      rw [ID3v2_Tag_set_text_frame_of_none tag ⟨fid, fl0, fl1, t⟩ hfind]
      exact ⟨by simpa [FrameList_add_frame, hzero] using h2,
             by simpa [FrameList_add_frame, FrameList_get_frame_by_id] using h1⟩
  | some oldf =>
      have hfind0 : tag.frames.find? (fun f => f.id == fid) = some oldf := hfind
      have hone : tag.frames.countP (fun f => f.id == fid) = 1 := by
        have hpos : 0 < tag.frames.countP (fun f => f.id == fid) := by
          have hp := List.find?_some hfind0
          rw [List.countP_pos_iff]
          exact ⟨oldf, List.mem_of_find?_eq_some hfind0, hp⟩
        omega
      obtain ⟨h1, h2, _⟩ := FrameList_replace_found fid oldf
        (TextFrame_new fid fl0 fl1 t) rfl tag.frames hfind
      rw [ID3v2_Tag_set_text_frame_of_some tag ⟨fid, fl0, fl1, t⟩ oldf hfind]
      exact ⟨by simpa [hone] using h2,
             by simpa [FrameList_get_frame_by_id] using h1⟩

/-- C6 amended: for every tag holding at most one frame with the target id
(the unrestricted claim fails when duplicates of the id are already present),
setting a text frame id twice yields exactly one frame with that id, holding
the latest text, at the position the first set placed it, and the second set
changes `tag_size` by exactly the difference between the new frame's size and
the replaced frame's size. -/
theorem set_text_frame_reset_keeps_latest :
    ∀ (tag : ID3v2_Tag) (fid : FrameId) (fl0 fl1 : Nat) (t1 t2 : List Nat),
      tag.frames.countP (fun f => f.id == fid) ≤ 1 →
      (ID3v2_Tag_set_text_frame (ID3v2_Tag_set_text_frame tag ⟨fid, fl0, fl1, t1⟩)
          ⟨fid, fl0, fl1, t2⟩).frames.countP (fun f => f.id == fid) = 1 ∧
      FrameList_get_frame_by_id (ID3v2_Tag_set_text_frame
          (ID3v2_Tag_set_text_frame tag ⟨fid, fl0, fl1, t1⟩)
          ⟨fid, fl0, fl1, t2⟩).frames fid = some (TextFrame_new fid fl0 fl1 t2) ∧
      frame_text (TextFrame_new fid fl0 fl1 t2) = some t2 ∧
      (ID3v2_Tag_set_text_frame (ID3v2_Tag_set_text_frame tag ⟨fid, fl0, fl1, t1⟩)
          ⟨fid, fl0, fl1, t2⟩).frames.findIdx (fun f => f.id == fid) =
        (ID3v2_Tag_set_text_frame tag ⟨fid, fl0, fl1, t1⟩).frames.findIdx
          (fun f => f.id == fid) ∧
      (ID3v2_Tag_set_text_frame (ID3v2_Tag_set_text_frame tag ⟨fid, fl0, fl1, t1⟩)
          ⟨fid, fl0, fl1, t2⟩).header.tag_size =
        (ID3v2_Tag_set_text_frame tag ⟨fid, fl0, fl1, t1⟩).header.tag_size +
          (((TextFrame_new fid fl0 fl1 t2).size : Int) -
            ((TextFrame_new fid fl0 fl1 t1).size : Int)) := by
  intro tag fid fl0 fl1 t1 t2 hcount
  obtain ⟨hcount1, hfind1⟩ := set_text_frame_step tag fid fl0 fl1 t1 hcount
  obtain ⟨h1, h2, h3⟩ := FrameList_replace_found fid (TextFrame_new fid fl0 fl1 t1)
    (TextFrame_new fid fl0 fl1 t2) rfl
    (ID3v2_Tag_set_text_frame tag ⟨fid, fl0, fl1, t1⟩).frames hfind1
  rw [ID3v2_Tag_set_text_frame_of_some _ ⟨fid, fl0, fl1, t2⟩ _ hfind1]
  exact ⟨by simpa [hcount1] using h2,
         by simpa [FrameList_get_frame_by_id] using h1,
         rfl, h3, rfl⟩

/-- C6 witness: the amended theorem applied to the empty tag with the title
id and two one-byte texts. -/
theorem set_text_frame_reset_keeps_latest_witness :
    (ID3v2_Tag_set_text_frame (ID3v2_Tag_set_text_frame ID3v2_Tag_new_empty
        ⟨ID3v2_TITLE_FRAME_ID, 0, 0, [65]⟩)
        ⟨ID3v2_TITLE_FRAME_ID, 0, 0, [66]⟩).frames.countP
      (fun f => f.id == ID3v2_TITLE_FRAME_ID) = 1 ∧
    FrameList_get_frame_by_id (ID3v2_Tag_set_text_frame
        (ID3v2_Tag_set_text_frame ID3v2_Tag_new_empty
          ⟨ID3v2_TITLE_FRAME_ID, 0, 0, [65]⟩)
        ⟨ID3v2_TITLE_FRAME_ID, 0, 0, [66]⟩).frames ID3v2_TITLE_FRAME_ID =
      some (TextFrame_new ID3v2_TITLE_FRAME_ID 0 0 [66]) :=
  ⟨(set_text_frame_reset_keeps_latest ID3v2_Tag_new_empty ID3v2_TITLE_FRAME_ID 0 0
      [65] [66] (by decide)).1,
   (set_text_frame_reset_keeps_latest ID3v2_Tag_new_empty ID3v2_TITLE_FRAME_ID 0 0
      [65] [66] (by decide)).2.1⟩


/-- A successfully parsed frame advances the stream cursor. -/
theorem Frame_parse_advances (major : Nat) (cs cs' : CharStream) (f : ID3v2_Frame)
    (h : Frame_parse major cs = some (f, cs')) : cs.cursor < cs'.cursor := by
  simp only [Frame_parse] at h
  repeat' split at h
  all_goals first
    | exact Option.noConfusion h
    | · have h2 := congrArg (fun p : ID3v2_Frame × CharStream => p.2.cursor)
          (Option.some.inj h)
        dsimp only at h2
        simp only [ID3v2_FRAME_HEADER_LENGTH] at h2
        omega

/-- The frame loop of `Tag_parse` computes, for some `k`, exactly the first
`k` successively parsed frames, and it stops either because the cursor
reached the declared bound or because the next frame fails to parse. -/
theorem Tag_parse_frames_characterization :
    ∀ (fuel major : Nat) (bound : Int) (cs : CharStream),
      bound.toNat ≤ cs.cursor + fuel →
      ∃ k, Tag_parse_frames major bound fuel cs = Frame_parse_iter major k cs ∧
        (¬ (((Frame_parse_iter major k cs).2.cursor : Int) < bound) ∨
          Frame_parse major (Frame_parse_iter major k cs).2 = none) := by
  intro fuel
  induction fuel with
  | zero =>
      intro major bound cs hfuel
      refine ⟨0, rfl, Or.inl ?_⟩
      simp only [Frame_parse_iter]
      omega
  | succ n ih =>
      intro major bound cs hfuel
      by_cases hc : (cs.cursor : Int) < bound
      · cases hp : Frame_parse major cs with
        | none =>
            refine ⟨0, ?_, Or.inr ?_⟩
            · simp only [Tag_parse_frames, if_pos hc, hp, Frame_parse_iter]
            · simpa only [Frame_parse_iter] using hp
        | some r =>
            obtain ⟨f, cs'⟩ := r
            have hadv := Frame_parse_advances major cs cs' f hp
            obtain ⟨k, hk, hstop⟩ := ih major bound cs' (by omega)
            refine ⟨k + 1, ?_, ?_⟩
            · simp only [Tag_parse_frames, if_pos hc, hp, Frame_parse_iter, hk]
            · simpa only [Frame_parse_iter, hp] using hstop
      · refine ⟨0, ?_, Or.inl ?_⟩
        · simp only [Tag_parse_frames, if_neg hc, Frame_parse_iter]
        · simpa only [Frame_parse_iter] using hc

/-- C7: whenever the tag header parses (however truncated or corrupt the
frame data that follows), `Tag_parse` still returns a tag; its frame list is
exactly the first `k` frames that parse successively, in their original
order, and the loop stopped either at the declared size bound or at the
first frame that failed to parse. -/
theorem tag_parse_keeps_frames_before_first_failure :
    ∀ (bytes : List Nat) (header : TagHeader) (cs : CharStream),
      Tag_parse_setup (CharStream_of_bytes bytes) = some (header, cs) →
      ∃ (tag : ID3v2_Tag) (k : Nat),
        Tag_parse bytes = some tag ∧
        tag.frames = (Frame_parse_iter header.major_version k cs).1 ∧
        (¬ (((Frame_parse_iter header.major_version k cs).2.cursor : Int) <
              header.tag_size) ∨
          Frame_parse header.major_version (Frame_parse_iter header.major_version k cs).2 =
            none) := by
  intro bytes header cs hsetup
  obtain ⟨k, hk, hstop⟩ := Tag_parse_frames_characterization
    (header.tag_size.toNat + 1) header.major_version header.tag_size cs (by omega)
  refine ⟨⟨header, (Frame_parse_iter header.major_version k cs).1,
    ((Frame_parse_iter header.major_version k cs).2.size : Int) -
      ((Frame_parse_iter header.major_version k cs).2.cursor : Int)⟩, k, ?_, rfl, hstop⟩
  unfold Tag_parse
  rw [hsetup]
  dsimp only
  rw [hk]

/-- C7 witness: the theorem applied to a concrete 34-byte region declaring
`tag_size = 30` and holding one well-formed title frame followed by
truncated zero bytes; the parse keeps exactly that one frame. -/
theorem tag_parse_keeps_frames_before_first_failure_witness :
    ∃ (tag : ID3v2_Tag) (k : Nat),
      Tag_parse ([73, 68, 51, 3, 0, 0] ++ [0, 0, 0, 30] ++
        [84, 73, 84, 50, 0, 0, 0, 1, 0, 0] ++ [0] ++ List.replicate 13 0) = some tag ∧
      tag.frames = (Frame_parse_iter 3 k
        ⟨[73, 68, 51, 3, 0, 0] ++ [0, 0, 0, 30] ++
          [84, 73, 84, 50, 0, 0, 0, 1, 0, 0] ++ [0] ++ List.replicate 13 0, 10, 34⟩).1 ∧
      (¬ (((Frame_parse_iter 3 k
            ⟨[73, 68, 51, 3, 0, 0] ++ [0, 0, 0, 30] ++
              [84, 73, 84, 50, 0, 0, 0, 1, 0, 0] ++ [0] ++
                List.replicate 13 0, 10, 34⟩).2.cursor : Int) < (30 : Int)) ∨
        Frame_parse 3 (Frame_parse_iter 3 k
          ⟨[73, 68, 51, 3, 0, 0] ++ [0, 0, 0, 30] ++
            [84, 73, 84, 50, 0, 0, 0, 1, 0, 0] ++ [0] ++
              List.replicate 13 0, 10, 34⟩).2 = none) :=
  tag_parse_keeps_frames_before_first_failure
    ([73, 68, 51, 3, 0, 0] ++ [0, 0, 0, 30] ++
      [84, 73, 84, 50, 0, 0, 0, 1, 0, 0] ++ [0] ++ List.replicate 13 0)
    ⟨73, 68, 51, 3, 0, 0, 30, 0⟩
    ⟨[73, 68, 51, 3, 0, 0] ++ [0, 0, 0, 30] ++
      [84, 73, 84, 50, 0, 0, 0, 1, 0, 0] ++ [0] ++ List.replicate 13 0, 10, 34⟩
    (by decide)

/-- Writing into a stream whose cursor is inside its buffer appends the bytes
to the written prefix, keeps the cursor inside the buffer, preserves the
capacity field and advances the cursor by the byte count. -/
theorem CharStream_write_spec (cs : CharStream) (b : List Nat)
    (h : cs.cursor ≤ cs.data.length) :
    (CharStream_write cs b).written = cs.written ++ b ∧
    (CharStream_write cs b).cursor ≤ (CharStream_write cs b).data.length ∧
    (CharStream_write cs b).size = cs.size ∧
    (CharStream_write cs b).cursor = cs.cursor + b.length := by
  refine ⟨?_, ?_, rfl, rfl⟩
  · show (cs.data.take cs.cursor ++ b ++
      cs.data.drop (cs.cursor + b.length)).take (cs.cursor + b.length) =
        cs.data.take cs.cursor ++ b
    exact List.take_left' (by simp [List.length_take]; omega)
  · show cs.cursor + b.length ≤ (cs.data.take cs.cursor ++ b ++
      cs.data.drop (cs.cursor + b.length)).length
    simp [List.length_take, List.length_drop]
    omega

/-- The written prefix of a stream whose cursor is inside its buffer has
exactly cursor-many bytes. -/
theorem CharStream_written_length (cs : CharStream) (h : cs.cursor ≤ cs.data.length) :
    cs.written.length = cs.cursor := by
  simp [CharStream.written, List.length_take]
  omega

/-- The serialized frame-header bytes are exactly the 10 header bytes. -/
theorem frame_header_bytes_length (f : ID3v2_Frame) :
    (frame_header_bytes f).length = ID3v2_FRAME_HEADER_LENGTH := by
  simp [frame_header_bytes, syncsafe_bytes, ID3v2_FRAME_HEADER_LENGTH]

/-- A frame satisfying the size invariant serializes to a stream whose
capacity is its full serialized size and whose first `size` bytes (the bytes
the tag serializer copies) are exactly its header bytes followed by its
encoded body. -/
theorem Frame_to_char_stream_of_consistent (f : ID3v2_Frame) (b : List Nat)
    (henc : Frame_body_encode f.body = some b) (hlen : b.length = f.size) :
    ∃ fcs, Frame_to_char_stream f = some fcs ∧
      fcs.size = f.size + ID3v2_FRAME_HEADER_LENGTH ∧
      fcs.data.take fcs.size = frame_full_stream_bytes f := by
  have hhb := frame_header_bytes_length f
  refine ⟨CharStream_write (CharStream_write
      (CharStream_new (f.size + ID3v2_FRAME_HEADER_LENGTH)) (frame_header_bytes f)) b,
    ?_, rfl, ?_⟩
  · unfold Frame_to_char_stream
    rw [henc]
  · have hd1 : (CharStream_write (CharStream_new (f.size + ID3v2_FRAME_HEADER_LENGTH))
        (frame_header_bytes f)).data =
          frame_header_bytes f ++ List.replicate f.size 0 := by
      simp [CharStream_write, CharStream_new, hhb, List.drop_replicate,
        ID3v2_FRAME_HEADER_LENGTH]
    have hc1 : (CharStream_write (CharStream_new (f.size + ID3v2_FRAME_HEADER_LENGTH))
        (frame_header_bytes f)).cursor = ID3v2_FRAME_HEADER_LENGTH := by
      simp [CharStream_write, CharStream_new, hhb]
    have hd2 : (CharStream_write (CharStream_write
        (CharStream_new (f.size + ID3v2_FRAME_HEADER_LENGTH)) (frame_header_bytes f)) b).data =
        frame_header_bytes f ++ b := by
      show (CharStream_write (CharStream_new (f.size + ID3v2_FRAME_HEADER_LENGTH))
          (frame_header_bytes f)).data.take
          (CharStream_write (CharStream_new (f.size + ID3v2_FRAME_HEADER_LENGTH))
            (frame_header_bytes f)).cursor ++ b ++
        (CharStream_write (CharStream_new (f.size + ID3v2_FRAME_HEADER_LENGTH))
          (frame_header_bytes f)).data.drop
          ((CharStream_write (CharStream_new (f.size + ID3v2_FRAME_HEADER_LENGTH))
            (frame_header_bytes f)).cursor + b.length) = frame_header_bytes f ++ b
      rw [hd1, hc1, List.take_left' hhb, hlen]
      rw [List.drop_eq_nil_of_le (by simp [hhb, ID3v2_FRAME_HEADER_LENGTH]),
        List.append_nil]
    have hs2 : (CharStream_write (CharStream_write
        (CharStream_new (f.size + ID3v2_FRAME_HEADER_LENGTH)) (frame_header_bytes f)) b).size =
        f.size + ID3v2_FRAME_HEADER_LENGTH := rfl
    rw [hs2, hd2]
    rw [List.take_of_length_le (by simp [hhb, hlen, ID3v2_FRAME_HEADER_LENGTH]; omega)]
    unfold frame_full_stream_bytes
    rw [henc]
    rfl

/-- The serialization frame loop, run over frames satisfying the size
invariant from a stream whose cursor is inside its buffer, succeeds and
appends exactly the frames' byte images in list order. -/
theorem Tag_write_frames_ok :
    ∀ (l : List ID3v2_Frame) (cs : CharStream),
      (∀ f ∈ l, Frame_size_consistent f) → cs.cursor ≤ cs.data.length →
      ∃ cs', Tag_write_frames l cs = .ok cs' ∧
        cs'.written = cs.written ++ frames_layout_spec l ∧
        cs'.size = cs.size ∧ cs'.cursor ≤ cs'.data.length := by
  intro l
  induction l with
  | nil =>
      intro cs _ hinv
      exact ⟨cs, rfl, by simp [frames_layout_spec], rfl, hinv⟩
  | cons f rest ih =>
      intro cs hcons hinv
      have hf : Frame_size_consistent f := hcons f (List.mem_cons_self f rest)
      obtain ⟨b, henc, hlen⟩ := Option.map_eq_some'.mp hf
      obtain ⟨fcs, hfcs, hsize, hbytes⟩ := Frame_to_char_stream_of_consistent f b henc hlen
      obtain ⟨hw1, hw2, hw3, _⟩ := CharStream_write_spec cs (fcs.data.take fcs.size) hinv
      obtain ⟨cs', hcs', hwr, hsz, hinv'⟩ := ih (CharStream_write cs (fcs.data.take fcs.size))
        (fun g hg => hcons g (List.mem_cons_of_mem f hg)) hw2
      refine ⟨cs', ?_, ?_, ?_, hinv'⟩
      · simp only [Tag_write_frames, hfcs]
        exact hcs'
      · rw [hwr, hw1, hbytes]
        show _ = cs.written ++ frames_layout_spec (f :: rest)
        unfold frames_layout_spec
        simp [List.append_assoc]
      · rw [hsz, hw3]

/-- C8: whenever `Tag_to_char_stream` completes on a tag whose frames satisfy
the data-model size invariant, the output stream is allocated at exactly
`header length + tag_size` bytes and the bytes written are exactly the
10-byte serialized header followed by the frames' byte images concatenated in
list order — nothing else (in particular no padding bytes) is written. -/
theorem tag_serialization_layout :
    ∀ (tag : ID3v2_Tag) (cs : CharStream),
      (∀ f ∈ tag.frames, Frame_size_consistent f) →
      Tag_to_char_stream tag = .ok cs →
      cs.size = (tag.header.tag_size + (ID3v2_TAG_HEADER_LENGTH : Int)).toNat ∧
      cs.written = tag_header_layout_spec tag.header ++ frames_layout_spec tag.frames ∧
      cs.cursor =
        (tag_header_layout_spec tag.header ++ frames_layout_spec tag.frames).length := by
  intro tag cs hcons hser
  simp only [Tag_to_char_stream] at hser
  have h0 : (CharStream_new (tag.header.tag_size +
      (ID3v2_TAG_HEADER_LENGTH : Int)).toNat).cursor ≤
      (CharStream_new (tag.header.tag_size + (ID3v2_TAG_HEADER_LENGTH : Int)).toNat).data.length := by
    simp [CharStream_new]
  obtain ⟨ha1, ha2, ha3, _⟩ := CharStream_write_spec _ [tag.header.id0, tag.header.id1,
    tag.header.id2] h0
  obtain ⟨hb1, hb2, hb3, _⟩ := CharStream_write_spec _ [tag.header.major_version] ha2
  obtain ⟨hc1, hc2, hc3, _⟩ := CharStream_write_spec _ [tag.header.minor_version] hb2
  obtain ⟨hd1, hd2, hd3, _⟩ := CharStream_write_spec _ [tag.header.flags] hc2
  obtain ⟨he1, he2, he3, _⟩ := CharStream_write_spec _
    (syncsafe_bytes tag.header.tag_size.toNat) hd2
  obtain ⟨cs', hloop, hwr, hsz, hinv'⟩ := Tag_write_frames_ok tag.frames _ hcons he2
  rw [hloop] at hser
  have hcs : cs' = cs := TagStreamResult.ok.inj hser
  subst hcs
  have hhdr : (CharStream_write (CharStream_write (CharStream_write (CharStream_write
      (CharStream_write (CharStream_new (tag.header.tag_size +
        (ID3v2_TAG_HEADER_LENGTH : Int)).toNat)
      [tag.header.id0, tag.header.id1, tag.header.id2]) [tag.header.major_version])
      [tag.header.minor_version]) [tag.header.flags])
      (syncsafe_bytes tag.header.tag_size.toNat)).written =
      tag_header_layout_spec tag.header := by
    rw [he1, hd1, hc1, hb1, ha1]
    show (CharStream_new _).written ++ _ ++ _ ++ _ ++ _ ++ _ = _
    simp [CharStream_new, CharStream.written, tag_header_layout_spec]
  refine ⟨?_, ?_, ?_⟩
  · rw [hsz, he3, hd3, hc3, hb3, ha3]
    rfl
  · rw [hwr, hhdr]
  · rw [← CharStream_written_length cs' hinv', hwr, hhdr]

/-- C8 witness: the theorem applied to a concrete tag of one consistent text
frame with `tag_size` 12, whose serialized stream has capacity 22 and holds
exactly the header bytes followed by the frame bytes. -/
theorem tag_serialization_layout_witness :
    (⟨[73, 68, 51, 3, 0, 0, 0, 0, 0, 12, 84, 73, 84, 50, 0, 0, 0, 2, 0, 0, 0, 72],
        22, 22⟩ : CharStream).size =
      (((⟨⟨73, 68, 51, 3, 0, 0, 12, 0⟩, [TextFrame_new ID3v2_TITLE_FRAME_ID 0 0 [72]],
        0⟩ : ID3v2_Tag).header.tag_size + (ID3v2_TAG_HEADER_LENGTH : Int))).toNat ∧
    (⟨[73, 68, 51, 3, 0, 0, 0, 0, 0, 12, 84, 73, 84, 50, 0, 0, 0, 2, 0, 0, 0, 72],
        22, 22⟩ : CharStream).written =
      tag_header_layout_spec (⟨73, 68, 51, 3, 0, 0, 12, 0⟩ : TagHeader) ++
        frames_layout_spec [TextFrame_new ID3v2_TITLE_FRAME_ID 0 0 [72]] ∧
    (⟨[73, 68, 51, 3, 0, 0, 0, 0, 0, 12, 84, 73, 84, 50, 0, 0, 0, 2, 0, 0, 0, 72],
        22, 22⟩ : CharStream).cursor =
      (tag_header_layout_spec (⟨73, 68, 51, 3, 0, 0, 12, 0⟩ : TagHeader) ++
        frames_layout_spec [TextFrame_new ID3v2_TITLE_FRAME_ID 0 0 [72]]).length :=
  tag_serialization_layout
    ⟨⟨73, 68, 51, 3, 0, 0, 12, 0⟩, [TextFrame_new ID3v2_TITLE_FRAME_ID 0 0 [72]], 0⟩
    ⟨[73, 68, 51, 3, 0, 0, 0, 0, 0, 12, 84, 73, 84, 50, 0, 0, 0, 2, 0, 0, 0, 72], 22, 22⟩
    (by decide) (by decide)

end Id3v2
